import Mathlib

/-!
A shallow embedding of the action-driven state update core of
`src/environmental-data-points.js`: the environmental-data-points dashboard
orchestrator and the recipes-manager orchestrator, together with the small
generic pieces they use (result, cursor, indexed collection, poll, banner).
Modules of the repository that are imported by the source file but are not
part of the staged sources are modelled from the specification; each such
definition carries a doc comment starting with `Modelled from the spec:`.

Effects are embedded as first-order descriptors: in the source an effect
carries a result-mapping function into the action type and `fx.map(tag)`
re-tags it; here each effect constructor already names the action the result
comes back as, and child components of the embedded orchestrators produce no
effects, so their effect type is `Empty`.
-/

set_option linter.unusedVariables false

namespace Openag

/-- Modelled from the spec: the `Result` sum type of `src/common/result.js`
(not under the staged sources): outcomes of fallible asynchronous operations,
`{Ok(value), Error(error)}`. -/
inductive Result (α ε : Type) where
  | ok (value : α)
  | error (err : ε)
deriving DecidableEq

/-- Modelled from the spec: `Result.updater(okUpdate, errorUpdate)` of
`src/common/result.js` (not under the staged sources): builds an update
function that dispatches on `result.isOk`. -/
def Result.updater {M α ε F : Type} (okUpdate : M → α → M × F)
    (errorUpdate : M → ε → M × F) (model : M) : Result α ε → M × F
  | .ok value => okUpdate model value
  | .error err => errorUpdate model err

/-- Modelled from the spec: `batch(update, model, actions)` of
`src/common/prelude.js` (not under the staged sources): folds the update
function over a list of actions, collecting the returned effects in order
into one batch. -/
def batchUpdate {M A F : Type} (upd : M → A → M × List F) :
    M → List A → M × List F
  | model, [] => (model, [])
  | model, action :: rest =>
    let (m1, fx1) := upd model action
    let (m2, fx2) := batchUpdate upd m1 rest
    (m2, fx1 ++ fx2)

/-- Modelled from the spec: the cursor/lens composer of `src/common/cursor.js`
(not under the staged sources): reads the child sub-state with `get`, runs the
child update, writes the new child state back with `set`, and maps the child
effects into the parent's effect type (in the source this is `fx.map(tag)`
over action-carrying effects; effects here are first-order descriptors, so
the mapping is over effect descriptors). -/
def cursor {P C A F G : Type} (get : P → C) (set : P → C → P)
    (upd : C → A → C × List F) (tagFx : F → G) (model : P) (action : A) :
    P × List G :=
  let (child, fx) := upd (get model) action
  (set model child, fx.map tagFx)

/-- Modelled from the spec: `Unknown.update` of `src/common/unknown.js`
(not under the staged sources): an unrecognized action is logged and does not
alter state. -/
def Unknown.update {M A F : Type} (model : M) (action : A) : M × List F :=
  (model, [])

/-- JS object lookup `object[key]` on an insertion-ordered association list
(`undefined` becomes `none`). -/
def objGet {α : Type} : List (String × α) → String → Option α
  | [], _ => none
  | (k, v) :: rest, key => if key = k then some v else objGet rest key

/-- JS object key assignment `object[key] = v`: replaces the value in place
when the key is present (keeping its position), appends a new pair
otherwise. -/
def objSet {α : Type} : List (String × α) → String → α → List (String × α)
  | [], key, v => [(key, v)]
  | (k, w) :: rest, key, v =>
    if key = k then (k, v) :: rest else (k, w) :: objSet rest key v

/-- JS `Array.prototype.shift()` read as a pure function: the first element,
or `undefined` (`none`) on an empty array. -/
def jsShift {α : Type} : List α → Option α
  | [] => none
  | a :: _ => some a

/-- JS truthiness of a nullable string field: `null`/`undefined` and the
empty string are falsy. -/
def jsTruthy : Option String → Bool
  | none => false
  | some s => !(s == "")

/-- Modelled from the spec: `localize` of `src/common/lang.js` (not under the
staged sources); localization string lookup, modelled as the identity. -/
def localize (s : String) : String := s

/-- A sensor data point carried in a row's `value` field. The JS field
`variable` is called `varName` here (`variable` is a Lean keyword); `value`
stands for the rest of the document's payload. -/
structure DataPoint where
  varName : String
  value : String
deriving DecidableEq

/-- A row of a fetched record set (`{rows: [{value: ...}]}` shape). -/
structure Row where
  value : DataPoint
deriving DecidableEq

/-- A fetched record set. -/
structure Record where
  rows : List Row
deriving DecidableEq

/-- Modelled from the spec: the configured origin URL for the latest
environmental data points (`Config.db_origin_environmental_data_point_latest`;
`openag-config.json` is not under the staged sources, so the URL is an
abstract constant). -/
def ORIGIN_LATEST : String := "db_origin_environmental_data_point_latest"

def RECIPE_START : String := "recipe_start"

def RECIPE_END : String := "recipe_end"

def AIR_TEMPERATURE : String := "air_temperature"

def WATER_TEMPERATURE : String := "water_temperature"

/-- `matcher(key, value)(object)`: the source selects the field by its name
string; here the field is passed as an accessor. -/
def matcher (key : DataPoint → String) (v : String) (object : DataPoint) :
    Bool :=
  key object == v

def isRecipeStart : DataPoint → Bool := matcher DataPoint.varName RECIPE_START

def isRecipeEnd : DataPoint → Bool := matcher DataPoint.varName RECIPE_END

def isAirTemperature : DataPoint → Bool :=
  matcher DataPoint.varName AIR_TEMPERATURE

def isWaterTemperature : DataPoint → Bool :=
  matcher DataPoint.varName WATER_TEMPERATURE

namespace Poll

/-- Modelled from the spec: the heartbeat actions of `src/common/poll.js`
(not under the staged sources): `Ping` requests a poll, `Pong` signals
ordinary receipt, `Miss` a failed fetch attempt. -/
inductive Action where
  | ping
  | pong
  | miss
deriving DecidableEq

/-- Modelled from the spec: the poll cycle's conceptual states,
`{waiting, polling}`. -/
inductive State where
  | waiting
  | polling
deriving DecidableEq

/-- Modelled from the spec: the poll model; `missed` records that the last
attempt failed, keeping `Miss` observably distinct from `Pong`. -/
structure Model where
  state : State
  missed : Bool
deriving DecidableEq

/-- Modelled from the spec: poll transitions; no internal timer logic. -/
def update (model : Model) : Action → Model × List Empty
  | .ping => ({ model with state := .polling }, [])
  | .pong => ({ state := .waiting, missed := false }, [])
  | .miss => ({ state := .waiting, missed := true }, [])

def init : Model × List Empty := ({ state := .waiting, missed := false }, [])

end Poll

namespace EnvironmentalDataPoint

/-- Modelled from the spec: the data-point series actions of
`src/environmental-data-point.js` (not under the staged sources); `AddMany`
adds a batch of readings to the series. -/
inductive Action where
  | addMany (values : List DataPoint)
deriving DecidableEq

/-- Modelled from the spec: one environmental data-point series (variable
name, localized title, measured readings). -/
structure Model where
  varName : String
  title : String
  measured : List DataPoint
deriving DecidableEq

/-- Modelled from the spec: `AddMany` appends the given readings to the
series. -/
def update (model : Model) : Action → Model × List Empty
  | .addMany values => ({ model with measured := model.measured ++ values }, [])

def init (v : String) (title : String) : Model × List Empty :=
  ({ varName := v, title := title, measured := [] }, [])

def AddMany (values : List DataPoint) : Action := .addMany values

end EnvironmentalDataPoint

namespace CurrentRecipe

/-- Modelled from the spec: the current-recipe tracker actions of
`src/environmental-data-point/recipe.js` (not under the staged sources).
`Start` carries the most recent recipe-start marker (possibly `undefined`,
i.e. `none`); `End` is called `stop` here (`end` is a Lean keyword). -/
inductive Action where
  | start (value : Option DataPoint)
  | stop (value : Option DataPoint)
deriving DecidableEq

/-- Modelled from the spec: the tracked current recipe marker. -/
structure Model where
  recipe : Option DataPoint
deriving DecidableEq

/-- Modelled from the spec: `Start` records the given marker as the current
recipe; `End` clears it. -/
def update (model : Model) : Action → Model × List Empty
  | .start value => ({ recipe := value }, [])
  | .stop _ => ({ recipe := none }, [])

def init : Model × List Empty := ({ recipe := none }, [])

def Start (value : Option DataPoint) : Action := .start value

def End (value : Option DataPoint) : Action := .stop value

end CurrentRecipe

namespace Dash

/-- The dashboard model of `src/environmental-data-points.js` (`init`):
a current-recipe tracker, a poll cycle, and the air and water temperature
series. -/
structure Model where
  currentRecipe : CurrentRecipe.Model
  poll : Poll.Model
  airTemperature : EnvironmentalDataPoint.Model
  waterTemperature : EnvironmentalDataPoint.Model
deriving DecidableEq

/-- The dashboard actions: the closed union of the `action.type` cases of the
dashboard `update`. -/
inductive Action where
  | currentRecipe (source : CurrentRecipe.Action)
  | airTemperature (source : EnvironmentalDataPoint.Action)
  | waterTemperature (source : EnvironmentalDataPoint.Action)
  | poll (source : Poll.Action)
  | get (url : String)
  | got (result : Result Record String)
  | restore (value : Record)
deriving DecidableEq

/-- Dashboard effect descriptors: the HTTP get request issued by
`Request.get` (its result comes back as `Got`), and `Effects.receive` of an
action. -/
inductive Fx where
  | get (url : String)
  | receive (action : Action)
deriving DecidableEq

/-- `GetLatest = Request.Get(ORIGIN_LATEST)`. -/
def GetLatest : Action := .get ORIGIN_LATEST

/-- `PollAction`: a `Ping` is translated into the "fetch latest" action,
every other poll action is tagged `Poll`. -/
def PollAction (action : Poll.Action) : Action :=
  match action with
  | .ping => GetLatest
  | a => .poll a

def PongPoll : Action := PollAction .pong

def MissPoll : Action := PollAction .miss

def AirTemperatureAction (source : EnvironmentalDataPoint.Action) : Action :=
  .airTemperature source

def WaterTemperatureAction (source : EnvironmentalDataPoint.Action) : Action :=
  .waterTemperature source

/-- `compose(AirTemperatureAction, EnvironmentalDataPoint.AddMany)`. -/
def AddManyAirTemperatures (values : List DataPoint) : Action :=
  AirTemperatureAction (EnvironmentalDataPoint.AddMany values)

/-- `compose(WaterTemperatureAction, EnvironmentalDataPoint.AddMany)`. -/
def AddManyWaterTemperatures (values : List DataPoint) : Action :=
  WaterTemperatureAction (EnvironmentalDataPoint.AddMany values)

def CurrentRecipeAction (source : CurrentRecipe.Action) : Action :=
  .currentRecipe source

/-- `compose(CurrentRecipeAction, CurrentRecipe.Start)`. -/
def CurrentRecipeStart (value : Option DataPoint) : Action :=
  CurrentRecipeAction (CurrentRecipe.Start value)

/-- `compose(CurrentRecipeAction, CurrentRecipe.End)`; defined in the source
but never dispatched. -/
def CurrentRecipeEnd (value : Option DataPoint) : Action :=
  CurrentRecipeAction (CurrentRecipe.End value)

def Restore (value : Record) : Action := .restore value

def updatePoll : Model → Poll.Action → Model × List Fx :=
  cursor (fun model => model.poll)
    (fun model poll => { model with poll := poll })
    Poll.update Empty.elim

def updateAirTemperature :
    Model → EnvironmentalDataPoint.Action → Model × List Fx :=
  cursor (fun model => model.airTemperature)
    (fun model airTemperature => { model with airTemperature := airTemperature })
    EnvironmentalDataPoint.update Empty.elim

def updateWaterTemperature :
    Model → EnvironmentalDataPoint.Action → Model × List Fx :=
  cursor (fun model => model.waterTemperature)
    (fun model waterTemperature =>
      { model with waterTemperature := waterTemperature })
    EnvironmentalDataPoint.update Empty.elim

def updateCurrentRecipe : Model → CurrentRecipe.Action → Model × List Fx :=
  cursor (fun model => model.currentRecipe)
    (fun model currentRecipe => { model with currentRecipe := currentRecipe })
    CurrentRecipe.update Empty.elim

def readDataPointFromRow (row : Row) : DataPoint := row.value

def readDataPoints (record : Record) (predicate : DataPoint → Bool) :
    List DataPoint :=
  (record.rows.map readDataPointFromRow).filter predicate

/-- Read most recent data point from the record set: filter by predicate and
take the first element (`.shift()`) of the already-ordered result. -/
def readMostRecentDataPoint (record : Record) (predicate : DataPoint → Bool) :
    Option DataPoint :=
  jsShift ((record.rows.map readDataPointFromRow).filter predicate)

/-- Modelled from the spec: `Request.get` of `src/common/request.js` (not
under the staged sources): issues an HTTP get effect whose result comes back
as `Got`. -/
def requestGet (model : Model) (url : String) : Model × List Fx :=
  (model, [.get url])

/-- The three actions `restore` batches, in order. -/
def restoreActions (record : Record) : List Action :=
  [ AddManyAirTemperatures (readDataPoints record isAirTemperature),
    AddManyWaterTemperatures (readDataPoints record isWaterTemperature),
    CurrentRecipeStart (readMostRecentDataPoint record isRecipeStart) ]

/-- `restore(model, record) = batch(update, model, restoreActions record)`;
the recursive `update` calls of the batch are unfolded one step (each batched
action is handled by its cursor branch), keeping the definition structural.
`dash_restore_eq_batch` proves the equality with the batched form. -/
def restore (model : Model) (record : Record) : Model × List Fx :=
  let (m1, fx1) :=
    updateAirTemperature model
      (.addMany (readDataPoints record isAirTemperature))
  let (m2, fx2) :=
    updateWaterTemperature m1
      (.addMany (readDataPoints record isWaterTemperature))
  let (m3, fx3) :=
    updateCurrentRecipe m2
      (.start (readMostRecentDataPoint record isRecipeStart))
  (m3, fx1 ++ (fx2 ++ (fx3 ++ [])))

/-- The dashboard update (`export const update`). The `Got` ok branch is
`gotOk`: `batch(update, model, [Restore(record), PongPoll])`, with the two
recursive `update` calls unfolded one step; the error branch is `gotError`:
`update(model, MissPoll)`, likewise unfolded to the poll cursor. -/
def update (model : Model) (action : Action) : Model × List Fx :=
  match action with
  | .currentRecipe source => updateCurrentRecipe model source
  | .airTemperature source => updateAirTemperature model source
  | .waterTemperature source => updateWaterTemperature model source
  | .poll source => updatePoll model source
  | .get url => requestGet model url
  | .got result =>
    match result with
    | .ok record =>
      let (m1, fx1) := restore model record
      let (m2, fx2) := updatePoll m1 .pong
      (m2, fx1 ++ (fx2 ++ []))
    | .error _ => updatePoll model .miss
  | .restore value => restore model value

/-- Modelled from the spec: the localized series titles
(`LANG[AIR_TEMPERATURE]`, `src/environmental-data-point/lang.js` not under
the staged sources), modelled as the identity. -/
def LANG (s : String) : String := s

def init : Model × List Fx :=
  ( { currentRecipe := CurrentRecipe.init.1,
      poll := Poll.init.1,
      airTemperature :=
        (EnvironmentalDataPoint.init AIR_TEMPERATURE (LANG AIR_TEMPERATURE)).1,
      waterTemperature :=
        (EnvironmentalDataPoint.init WATER_TEMPERATURE
          (LANG WATER_TEMPERATURE)).1 },
    [.receive GetLatest] )

end Dash

/-- A recipe document: its PouchDB `_id` plus an opaque `payload` field
standing for the rest of the document. -/
structure Recipe where
  _id : String
  payload : String
deriving DecidableEq

/-- Modelled from the spec: the confirmation returned by a successful
database `put` (PouchDB's `{ok, id, rev}`; `src/common/database.js` is not
under the staged sources). -/
structure PutConfirmation where
  id : String
  rev : String
deriving DecidableEq

/-- `getPouchID = Indexed.getter('_id')`. -/
def getPouchID (r : Recipe) : String := r._id

/-- `merge({}, recipe)` (`merge` of `src/common/prelude.js`): a fresh
snapshot object carrying the same fields as the recipe. -/
def jsMergeCopy (r : Recipe) : Recipe := { _id := r._id, payload := r.payload }

namespace Banner

/-- Modelled from the spec: the banner alert modes of `src/common/banner.js`
(not under the staged sources): dismissable (sync errors) and refreshable
(non-dismissable, requires reload; storage restore errors). -/
inductive Mode where
  | hidden
  | dismissable
  | refreshable
deriving DecidableEq

/-- Modelled from the spec: the banner alert actions. -/
inductive Action where
  | alertDismissable (message : String)
  | alertRefreshable (message : String)
deriving DecidableEq

/-- Modelled from the spec: the banner model - the shown message and its
mode. -/
structure Model where
  message : String
  mode : Mode
deriving DecidableEq

/-- Modelled from the spec: an alert action shows its message in the
corresponding mode. -/
def update (model : Model) : Action → Model × List Empty
  | .alertDismissable message =>
    ({ message := message, mode := .dismissable }, [])
  | .alertRefreshable message =>
    ({ message := message, mode := .refreshable }, [])

def init : Model × List Empty := ({ message := "", mode := .hidden }, [])

def AlertDismissable (message : String) : Action := .alertDismissable message

def AlertRefreshable (message : String) : Action := .alertRefreshable message

end Banner

namespace Modal

/-- Modelled from the spec: the modal open/close actions of
`src/common/modal.js` (not under the staged sources); the constructors are
`opened`/`closed` (`open` is a Lean keyword). -/
inductive Action where
  | opened
  | closed
deriving DecidableEq

end Modal

namespace RecipesForm

/-- Modelled from the spec: the recipes form reducer of `src/recipes/form.js`
(not under the staged sources). `Back` and `Submitted(recipe)` are
intercepted by the parent's `RecipesFormAction`; `change` stands for the
form's own editing actions. -/
inductive Action where
  | back
  | submitted (recipe : Recipe)
  | change (value : String)
deriving DecidableEq

/-- Modelled from the spec: the form's own state (a draft being edited). -/
structure Model where
  draft : String
deriving DecidableEq

/-- Modelled from the spec: the form reducer; only `change` edits the
draft. -/
def update (model : Model) : Action → Model × List Empty
  | .change value => ({ draft := value }, [])
  | _ => (model, [])

def init : Model × List Empty := ({ draft := "" }, [])

end RecipesForm

namespace RecipeEntity

/-- Modelled from the spec: the per-recipe reducer of `src/recipe.js` (not
under the staged sources); `activate` is intercepted by `RecipeAction` into
`StartByID`, `modified` stands for its other actions. -/
inductive Action where
  | activate
  | modified (value : String)
deriving DecidableEq

/-- Modelled from the spec: the per-recipe reducer. -/
def update (entity : Recipe) : Action → Recipe × List Empty
  | .activate => (entity, [])
  | .modified value => ({ entity with payload := value }, [])

end RecipeEntity

namespace Indexed

/-- Modelled from the spec: the lifecycle action of `src/common/indexed.js`
(not under the staged sources): `Activate(id)` marks the entity as the
currently selected one. -/
inductive Action where
  | activate (id : String)
deriving DecidableEq

def Activate (id : String) : Action := .activate id

def NoOp : Unit := ()

end Indexed

namespace Recipes

/-- The recipes-manager model (`init` of the recipes module): selection,
panel, modal flag, origin URL, the indexed collection (`order`/`entries`),
the form sub-model and the banner sub-model. `entries` is a JS object,
embedded as an insertion-ordered association list. -/
structure Model where
  active : Option String
  activePanel : Option String
  isOpen : Bool
  origin : Option String
  order : List String
  entries : List (String × Recipe)
  recipesForm : RecipesForm.Model
  banner : Banner.Model
deriving DecidableEq

end Recipes

/-- Modelled from the spec: `add(collection, id, entity)` of
`src/common/indexed.js` (not under the staged sources): inserts the entity at
`id`, appending `id` to `order` if new, overwriting `entries[id]` otherwise
(idempotent re-insertion preserves the order position). -/
def Indexed.add (model : Recipes.Model) (id : String) (entity : Recipe) :
    Recipes.Model :=
  if (objGet model.entries id).isSome then
    { model with entries := objSet model.entries id entity }
  else
    { model with
      order := model.order ++ [id],
      entries := objSet model.entries id entity }

/-- Modelled from the spec: `indexWith(entities, keyFn)` of
`src/common/indexed.js` (not under the staged sources): builds a fresh
ID-to-entity mapping from a sequence (later duplicates overwrite earlier
ones, as JS object assignment does). -/
def Indexed.indexWith (entities : List Recipe) (keyFn : Recipe → String) :
    List (String × Recipe) :=
  entities.foldl (fun index entity => objSet index (keyFn entity) entity) []

/-- Modelled from the spec: `Indexed.update`, the child machine of the
`updateIndexed` cursor (the source cursor passes no `get`/`set`, so the
child state is the whole model): `Activate` overwrites the current
selection. -/
def Indexed.update (model : Recipes.Model) :
    Indexed.Action → Recipes.Model × List Empty
  | .activate id => ({ model with active := some id }, [])

/-- Modelled from the spec: `updateWithID(updateFn, tagFn, model, id, action)`
of `src/common/indexed.js` (not under the staged sources): routes the action
to the sub-machine for entity `id`; a no-op when `id` is absent; the child's
effects are tagged so results keep targeting the same `id`. -/
def Indexed.updateWithID {A F G : Type} (upd : Recipe → A → Recipe × List F)
    (tagFx : F → G) (model : Recipes.Model) (id : String) (action : A) :
    Recipes.Model × List G :=
  match objGet model.entries id with
  | none => (model, [])
  | some entity =>
    let (next, fx) := upd entity action
    ({ model with entries := objSet model.entries id next }, fx.map tagFx)

/-- Modelled from the spec: the modal reducer of `src/common/modal.js` (not
under the staged sources), acting on the whole model (the `updateModal`
cursor passes no `get`/`set`): `Open`/`Close` toggle `isOpen`. -/
def Modal.update (model : Recipes.Model) :
    Modal.Action → Recipes.Model × List Empty
  | .opened => ({ model with isOpen := true }, [])
  | .closed => ({ model with isOpen := false }, [])

namespace Recipes

/-- The recipes-manager actions: the closed union of the `action.type` cases
of the recipes `update`. `requestStart` has no branch in the source's update
(it is emitted for the parent and falls through to `Unknown.update`). -/
inductive Action where
  | indexed (source : Indexed.Action)
  | banner (source : Banner.Action)
  | recipesForm (source : RecipesForm.Action)
  | modal (source : Modal.Action)
  | noOp
  | put (value : Recipe)
  | putted (result : Result PutConfirmation String)
  | restoreRecipes
  | restoredRecipes (result : Result (List Recipe) String)
  | startByID (id : String)
  | requestStart (value : Option Recipe)
  | activatePanel (id : Option String)
  | sync
  | synced (result : Result Unit String)
  | recipe (id : String) (source : RecipeEntity.Action)
  | configure (origin : String)
deriving DecidableEq

/-- Recipes-manager effect descriptors: `restoreDB` stands for
`Database.restore(DB).map(RestoredRecipes)`, `putDB recipe` for
`Database.put(DB, recipe).map(Putted)`, `syncDB origin` for
`Database.sync(DB, origin).map(Synced)` (the `Database` gateway of
`src/common/database.js` is not under the staged sources and is modelled
from the spec as these opaque descriptors), and `receive` for
`Effects.receive` of an action. -/
inductive Fx where
  | receive (action : Action)
  | restoreDB
  | putDB (recipe : Recipe)
  | syncDB (origin : String)
deriving DecidableEq

def TagIndexed (source : Indexed.Action) : Action := .indexed source

/-- `compose(TagIndexed, Indexed.Activate)`. -/
def Activate (id : String) : Action := TagIndexed (Indexed.Activate id)

def TagModal (source : Modal.Action) : Action := .modal source

def TagBanner (source : Banner.Action) : Action := .banner source

/-- `compose(TagBanner, Banner.AlertRefreshable)`. -/
def AlertRefreshable (message : String) : Action :=
  TagBanner (Banner.AlertRefreshable message)

/-- `compose(TagBanner, Banner.AlertDismissable)`. -/
def AlertDismissable (message : String) : Action :=
  TagBanner (Banner.AlertDismissable message)

def Put (value : Recipe) : Action := .put value

def StartByID (id : String) : Action := .startByID id

def RequestStart (value : Option Recipe) : Action := .requestStart value

def ActivatePanel (id : Option String) : Action := .activatePanel id

def OpenModal : Action := TagModal .opened

def CloseModal : Action := TagModal .closed

/-- `RecipesFormAction`: `Back` is rewritten into `ActivatePanel(null)`,
`Submitted` into `Put(action.recipe)`; everything else is tagged
`RecipesForm`. -/
def RecipesFormAction : RecipesForm.Action → Action
  | .back => ActivatePanel none
  | .submitted recipe => Put recipe
  | a => .recipesForm a

/-- `RecipeAction(id, action)`: `Activate` is rewritten into `StartByID(id)`;
everything else is tagged `Recipe` with its `id`. -/
def RecipeAction (id : String) : RecipeEntity.Action → Action
  | .activate => StartByID id
  | a => .recipe id a

def ByID (id : String) : RecipeEntity.Action → Action := RecipeAction id

/-- Modelled from the spec: `templateRecipesDatabase(origin)` renders the
`Config.recipes.origin` template against the origin URL (`src/common/stache.js`
and `openag-config.json` are not under the staged sources); modelled as an
injective function of the origin. -/
def templateRecipesDatabase (origin : String) : String :=
  "recipes_db_for_" ++ origin

def updateBanner : Model → Banner.Action → Model × List Fx :=
  cursor (fun model => model.banner)
    (fun model banner => { model with banner := banner })
    Banner.update Empty.elim

def updateRecipesForm : Model → RecipesForm.Action → Model × List Fx :=
  cursor (fun model => model.recipesForm)
    (fun model recipesForm => { model with recipesForm := recipesForm })
    RecipesForm.update Empty.elim

/-- The source cursor for `Indexed` passes no `get`/`set`: the child state is
the whole model. -/
def updateIndexed : Model → Indexed.Action → Model × List Fx :=
  cursor (fun model => model) (fun _ child => child)
    Indexed.update Empty.elim

/-- The source cursor for `Modal` passes no `get`/`set`: the child state is
the whole model. -/
def updateModal : Model → Modal.Action → Model × List Fx :=
  cursor (fun model => model) (fun _ child => child)
    Modal.update Empty.elim

/-- `updateByID(model, id, action) =
Indexed.updateWithID(Recipe.update, ByID(id), model, id, action)`; the child
produces no effects here, so the effect tagging is over `Empty`. -/
def updateByID (model : Model) (id : String) (action : RecipeEntity.Action) :
    Model × List Fx :=
  Indexed.updateWithID RecipeEntity.update Empty.elim model id action

/-- `sync`: requires `origin` to be set; `if (model.origin)` is JS truthiness,
so a `null` or empty-string origin logs a warning and performs no I/O. -/
def sync (model : Model) : Model × List Fx :=
  match model.origin with
  | some origin =>
    if origin == "" then (model, [])
    else (model, [.syncDB (templateRecipesDatabase origin)])
  | none => (model, [])

/-- `syncedOk(model) = update(model, RestoreRecipes)`, unfolded one step to
the `RestoreRecipes` branch. -/
def syncedOk (model : Model) : Model × List Fx :=
  (model, [.restoreDB])

/-- `syncedError(model) = update(model, AlertDismissable(message))`, unfolded
one step to the banner cursor. -/
def syncedError (model : Model) : Model × List Fx :=
  updateBanner model
    (.alertDismissable
      (localize "Couldn't sync with the cloud. Using local database."))

/-- `restoredRecipes = Result.updater(onOk, onError)`: on ok, `order` and
`entries` are rebuilt from scratch from the restored records; on error,
`update(model, AlertRefreshable(message))`, unfolded one step to the banner
cursor. -/
def restoredRecipes (model : Model)
    (result : Result (List Recipe) String) : Model × List Fx :=
  Result.updater
    (fun model recipes =>
      ( { model with
          order := recipes.map getPouchID,
          entries := Indexed.indexWith recipes getPouchID },
        [] ))
    (fun model _err =>
      updateBanner model
        (.alertRefreshable
          (localize "Hmm, couldn't read from your browser's database.")))
    model result

/-- `startByID(model, id)`: `update(model, Activate(id))` (unfolded one step
to the `Indexed` cursor), then the effects batched with
`Effects.receive(RequestStart(merge({}, model.entries[id])))`; the snapshot
copy reads the entry from the pre-activation model, and an absent entry
(`merge({}, undefined)` being the empty object) is `none`. -/
def startByID (model : Model) (id : String) : Model × List Fx :=
  let (next, fx) := updateIndexed model (.activate id)
  (next,
    fx ++ [.receive (RequestStart ((objGet model.entries id).map jsMergeCopy))])

def activatePanel (model : Model) (id : Option String) : Model × List Fx :=
  ({ model with activePanel := id }, [])

/-- `put(model, recipe)`: inserts the recipe into the in-memory model first,
then issues the database write. -/
def put (model : Model) (recipe : Recipe) : Model × List Fx :=
  let next := Indexed.add model recipe._id recipe
  (next, [.putDB recipe])

/-- `putted(model, result)`: both the ok and the error branch of the source
return `[model, Effects.none]`. -/
def putted (model : Model) (result : Result PutConfirmation String) :
    Model × List Fx :=
  match result with
  | .ok _ => (model, [])
  | .error _ => (model, [])

/-- `configure(model, origin)`: sets `origin`, then
`batch(update, next, [RestoreRecipes, Sync])`, with the two recursive
`update` calls unfolded one step (`RestoreRecipes` issues the restore
effect, `Sync` runs the guard). `recipes_configure_eq_batch` proves the
equality with the batched form. -/
def configure (model : Model) (origin : String) : Model × List Fx :=
  let next := { model with origin := some origin }
  let (m1, fx1) := (next, ([Fx.restoreDB] : List Fx))
  let (m2, fx2) := sync m1
  (m2, fx1 ++ (fx2 ++ []))

/-- The recipes-manager update (`export const update`), one branch per
`action.type` case of the source. -/
def update (model : Model) (action : Action) : Model × List Fx :=
  match action with
  | .indexed source => updateIndexed model source
  | .banner source => updateBanner model source
  | .recipesForm source => updateRecipesForm model source
  | .modal source => updateModal model source
  | .noOp => (model, [])
  | .put value => put model value
  | .putted result => putted model result
  | .restoreRecipes => (model, [.restoreDB])
  | .restoredRecipes result => restoredRecipes model result
  | .startByID id => startByID model id
  | .activatePanel id => activatePanel model id
  | .sync => sync model
  | .synced result =>
    match result with
    | .ok _ => syncedOk model
    | .error _ => syncedError model
  | .recipe id source => updateByID model id source
  | .configure origin => configure model origin
  | .requestStart _ => Unknown.update model action

def init : Model × List Fx :=
  ( { active := none,
      activePanel := none,
      isOpen := false,
      origin := none,
      order := [],
      entries := [],
      recipesForm := RecipesForm.init.1,
      banner := Banner.init.1 },
    [] )

end Recipes

/-- A sample recipe used by concrete witnesses. -/
def sampleRecipe : Recipe := { _id := "x", payload := "tomato" }

/-- A sample recipes-manager model whose collection holds `sampleRecipe`. -/
def sampleRecipesModel : Recipes.Model :=
  { Recipes.init.1 with
    order := ["x"],
    entries := [("x", sampleRecipe)] }

/-- A sample record set holding one `recipe_end` row and no `recipe_start`
row, used by concrete witnesses. -/
def sampleEndOnlyRecord : Record :=
  { rows := [{ value := { varName := "recipe_end", value := "e1" } }] }

/-- `jsShift` is the first element of the list. -/
theorem jsShift_eq_head {α : Type} (l : List α) : jsShift l = l.head? := by
  cases l <;> rfl

/-- The first element of a filtered list is its first match. -/
theorem head_filter_eq_find {α : Type} (p : α → Bool) (l : List α) :
    (l.filter p).head? = l.find? p := by
  induction l with
  | nil => rfl
  | cons a t ih =>
    cases h : p a <;> simp [List.filter_cons, List.find?_cons, h, ih]

/-- Lookup after a JS object assignment. -/
theorem objGet_objSet {α : Type} (obj : List (String × α)) (k : String)
    (v : α) (key : String) :
    objGet (objSet obj k v) key = if key = k then some v else objGet obj key := by
  induction obj with
  | nil => rfl
  | cons head tail ih =>
    obtain ⟨k1, w⟩ := head
    by_cases h1 : k = k1
    · subst h1
      by_cases h2 : key = k <;> simp [objSet, objGet, h2]
    · by_cases h2 : key = k1 <;> by_cases h3 : key = k <;>
        simp_all [objSet, objGet]

/-- Presence in `indexWith`, generalized over the fold's accumulator: an id
is bound iff it was bound before or some entity of the sequence carries
it. -/
theorem indexWith_from_isSome (keyFn : Recipe → String) (rs : List Recipe) :
    ∀ (obj : List (String × Recipe)) (id : String),
      (objGet (rs.foldl (fun index entity => objSet index (keyFn entity) entity)
          obj) id).isSome
        ↔ (objGet obj id).isSome ∨ id ∈ rs.map keyFn := by
  induction rs with
  | nil => intro obj id; simp
  | cons r rs ih =>
    intro obj id
    simp only [List.foldl_cons, List.map_cons, List.mem_cons]
    rw [ih]
    rw [objGet_objSet]
    by_cases h : id = keyFn r <;> simp [h]

/-- Bindings of `indexWith`, generalized over the fold's accumulator: a bound
record was bound before or is one of the sequence's records, under its own
key. -/
theorem indexWith_from_mem (keyFn : Recipe → String) (rs : List Recipe) :
    ∀ (obj : List (String × Recipe)) (id : String) (r : Recipe),
      objGet (rs.foldl (fun index entity => objSet index (keyFn entity) entity)
          obj) id = some r →
        objGet obj id = some r ∨ (r ∈ rs ∧ keyFn r = id) := by
  induction rs with
  | nil => intro obj id r h; exact Or.inl h
  | cons e rs ih =>
    intro obj id r h
    simp only [List.foldl_cons] at h
    rcases ih _ id r h with h1 | h2
    · rw [objGet_objSet] at h1
      by_cases hc : id = keyFn e
      · rw [if_pos hc] at h1
        obtain rfl : e = r := Option.some.inj h1
        exact Or.inr ⟨List.mem_cons_self e rs, hc.symm⟩
      · rw [if_neg hc] at h1
        exact Or.inl h1
    · exact Or.inr ⟨List.mem_cons_of_mem e h2.1, h2.2⟩

/-- The dashboard's `restore` is the batch of its three actions: the inlined
definition agrees with `batch(update, model, restoreActions record)`. -/
theorem dash_restore_eq_batch (model : Dash.Model) (record : Record) :
    Dash.restore model record
      = batchUpdate Dash.update model (Dash.restoreActions record) := rfl

/-- C1 helper: no recipe-start row makes the most recent recipe-start data
point `undefined`. -/
theorem readMostRecent_none_of_no_match (record : Record)
    (p : DataPoint → Bool) (h : ∀ row ∈ record.rows, p row.value = false) :
    Dash.readMostRecentDataPoint record p = none := by
  unfold Dash.readMostRecentDataPoint
  rw [jsShift_eq_head, head_filter_eq_find]
  rw [List.find?_eq_none]
  intro x hx
  rcases List.mem_map.mp hx with ⟨row, hrow, hval⟩
  subst hval
  simp [Dash.readDataPointFromRow, h row hrow]

/-- C1 (confirmed): dispatching `Got` with an ok result equals batching a
`Restore` of the record set and a `Pong` to the poll sub-model; the batch
appends the `air_temperature` rows to the air-temperature series, appends
the `water_temperature` rows to the water-temperature series, feeds the most
recent `recipe_start` marker to the current-recipe tracker, and acknowledges
the poll with `Pong`. -/
theorem dashboard_gotOk_restores_and_pongs (model : Dash.Model)
    (record : Record) :
    Dash.update model (.got (.ok record))
        = batchUpdate Dash.update model [Dash.Restore record, Dash.PongPoll]
      ∧ (Dash.update model (.got (.ok record))).1.airTemperature.measured
          = model.airTemperature.measured
              ++ (record.rows.map Dash.readDataPointFromRow).filter
                  isAirTemperature
      ∧ (Dash.update model (.got (.ok record))).1.waterTemperature.measured
          = model.waterTemperature.measured
              ++ (record.rows.map Dash.readDataPointFromRow).filter
                  isWaterTemperature
      ∧ (Dash.update model (.got (.ok record))).1.currentRecipe
          = (CurrentRecipe.update model.currentRecipe
              (.start (Dash.readMostRecentDataPoint record isRecipeStart))).1
      ∧ (Dash.update model (.got (.ok record))).1.poll
          = (Poll.update model.poll .pong).1 :=
  ⟨rfl, rfl, rfl, rfl, rfl⟩

/-- C7 (confirmed): dispatching `Got` with an error routes a `Miss` to the
poll sub-model only - the air-temperature, water-temperature and
current-recipe fields of the returned state equal those of the input
model. -/
theorem dashboard_gotError_miss_only (model : Dash.Model) (e : String) :
    Dash.update model (.got (.error e)) = Dash.update model Dash.MissPoll
      ∧ (Dash.update model (.got (.error e))).1.airTemperature
          = model.airTemperature
      ∧ (Dash.update model (.got (.error e))).1.waterTemperature
          = model.waterTemperature
      ∧ (Dash.update model (.got (.error e))).1.currentRecipe
          = model.currentRecipe
      ∧ (Dash.update model (.got (.error e))).1.poll
          = (Poll.update model.poll .miss).1
      ∧ (Dash.update model (.got (.error e))).2 = [] :=
  ⟨rfl, rfl, rfl, rfl, rfl, rfl⟩

/-- C8 (confirmed): `readMostRecentDataPoint` returns exactly the first
element of the rows' values filtered by the predicate - equivalently the
first match in record order, with no recency comparison of its own. -/
theorem readMostRecentDataPoint_first_of_filtered (record : Record)
    (predicate : DataPoint → Bool) :
    Dash.readMostRecentDataPoint record predicate
        = ((record.rows.map Dash.readDataPointFromRow).filter
            predicate).head?
      ∧ Dash.readMostRecentDataPoint record predicate
          = (record.rows.map Dash.readDataPointFromRow).find? predicate := by
  constructor
  · exact jsShift_eq_head _
  · rw [Dash.readMostRecentDataPoint, jsShift_eq_head, head_filter_eq_find]

/-- C10 (confirmed): on a record set with no `recipe_start` row, `restore`
still dispatches a current-recipe `Start` action whose payload is undefined
(`none`), setting the tracker accordingly rather than skipping it; and
`restore` never dispatches a recipe-end action for any record set. -/
theorem dashboard_restore_without_recipe_start (model : Dash.Model)
    (record : Record)
    (h : ∀ row ∈ record.rows, row.value.varName ≠ RECIPE_START) :
    Dash.CurrentRecipeStart none ∈ Dash.restoreActions record
      ∧ (Dash.update model (.restore record)).1.currentRecipe
          = (CurrentRecipe.update model.currentRecipe (.start none)).1
      ∧ ∀ (record2 : Record) (value : Option DataPoint),
          Dash.CurrentRecipeEnd value ∉ Dash.restoreActions record2 := by
  have hn : Dash.readMostRecentDataPoint record isRecipeStart = none := by
    refine readMostRecent_none_of_no_match record isRecipeStart ?_
    intro row hr
    simp [isRecipeStart, matcher, h row hr]
  refine ⟨?_, ?_, ?_⟩
  · simp [Dash.restoreActions, Dash.CurrentRecipeStart,
      Dash.CurrentRecipeAction, CurrentRecipe.Start, hn]
  · simp [Dash.update, Dash.restore, Dash.updateAirTemperature,
      Dash.updateWaterTemperature, Dash.updateCurrentRecipe, cursor,
      CurrentRecipe.update, hn]
  · intro record2 value hmem
    simp [Dash.restoreActions, Dash.CurrentRecipeEnd, Dash.CurrentRecipeStart,
      Dash.CurrentRecipeAction, Dash.AddManyAirTemperatures,
      Dash.AddManyWaterTemperatures, Dash.AirTemperatureAction,
      Dash.WaterTemperatureAction, EnvironmentalDataPoint.AddMany,
      CurrentRecipe.Start, CurrentRecipe.End] at hmem

/-- C10 witness: a concrete record set holding only a `recipe_end` row - the
`Start(none)` action is batched and no recipe-end action is. -/
theorem dashboard_restore_without_recipe_start_witness :
    Dash.CurrentRecipeStart none ∈ Dash.restoreActions sampleEndOnlyRecord
      ∧ Dash.CurrentRecipeEnd none ∉ Dash.restoreActions sampleEndOnlyRecord :=
  ⟨(dashboard_restore_without_recipe_start Dash.init.1 sampleEndOnlyRecord
      (by decide)).1,
   (dashboard_restore_without_recipe_start Dash.init.1 sampleEndOnlyRecord
      (by decide)).2.2 sampleEndOnlyRecord none⟩

/-- C2 (confirmed): `RestoredRecipes` with an ok result fully replaces
`order` (the `_id` of each record, in sequence order) and `entries` (exactly
the ids of the new record set, bound to records of the set), issuing no
effect; with an error result it leaves `order` and `entries` untouched and
shows a refreshable (non-dismissable) banner alert. -/
theorem recipes_restoredRecipes_full_replace_or_alert (model : Recipes.Model)
    (recipes : List Recipe) (e : String) :
    (Recipes.update model (.restoredRecipes (.ok recipes))).1.order
        = recipes.map getPouchID
      ∧ (∀ id,
          (objGet (Recipes.update model
              (.restoredRecipes (.ok recipes))).1.entries id).isSome
            ↔ id ∈ recipes.map getPouchID)
      ∧ (∀ id r,
          objGet (Recipes.update model
              (.restoredRecipes (.ok recipes))).1.entries id = some r
            → r ∈ recipes ∧ getPouchID r = id)
      ∧ (Recipes.update model (.restoredRecipes (.ok recipes))).2 = []
      ∧ (Recipes.update model (.restoredRecipes (.error e))).1.order
          = model.order
      ∧ (Recipes.update model (.restoredRecipes (.error e))).1.entries
          = model.entries
      ∧ (Recipes.update model (.restoredRecipes (.error e))).1.banner
          = { message :=
                localize "Hmm, couldn't read from your browser's database.",
              mode := .refreshable }
      ∧ (Recipes.update model (.restoredRecipes (.error e))).2 = [] := by
  refine ⟨rfl, ?_, ?_, rfl, rfl, rfl, rfl, rfl⟩
  · intro id
    show (objGet (Indexed.indexWith recipes getPouchID) id).isSome ↔ _
    unfold Indexed.indexWith
    rw [indexWith_from_isSome]
    simp [objGet]
  · intro id r h
    have h2 : objGet (recipes.foldl
        (fun index entity => objSet index (getPouchID entity) entity) []) id
        = some r := h
    rcases indexWith_from_mem getPouchID recipes [] id r h2 with h3 | h3
    · simp [objGet] at h3
    · exact ⟨h3.1, h3.2⟩

/-- C3 (confirmed): `Put(recipe)` sets `entries[recipe._id]` to the recipe in
the returned state immediately - appending `recipe._id` to `order` exactly
when it was absent - and queues exactly one database write effect for that
recipe; no write confirmation is involved. -/
theorem recipes_put_optimistic_insert (model : Recipes.Model)
    (recipe : Recipe) :
    objGet (Recipes.update model (.put recipe)).1.entries recipe._id
        = some recipe
      ∧ ((objGet model.entries recipe._id).isSome
          → (Recipes.update model (.put recipe)).1.order = model.order)
      ∧ (objGet model.entries recipe._id = none
          → (Recipes.update model (.put recipe)).1.order
              = model.order ++ [recipe._id])
      ∧ (Recipes.update model (.put recipe)).2
          = [Recipes.Fx.putDB recipe] := by
  refine ⟨?_, ?_, ?_, rfl⟩
  · show objGet (Indexed.add model recipe._id recipe).entries recipe._id
        = some recipe
    by_cases h : (objGet model.entries recipe._id).isSome <;>
      simp [Indexed.add, h, objGet_objSet]
  · intro h
    show (Indexed.add model recipe._id recipe).order = model.order
    simp [Indexed.add, h]
  · intro hn
    show (Indexed.add model recipe._id recipe).order
        = model.order ++ [recipe._id]
    simp [Indexed.add, hn]

/-- C4 (confirmed): `Putted` - ok or error - returns the model unchanged and
issues no effect: a write failure is swallowed with no rollback, no alert and
no user feedback. -/
theorem recipes_putted_swallows_result (model : Recipes.Model)
    (result : Result PutConfirmation String) :
    Recipes.update model (.putted result) = (model, []) := by
  cases result <;> rfl

/-- C5 counterexample: dispatching `Configure("")` sets the origin but issues
only the restore effect - the sync guard `if (model.origin)` treats the empty
string as falsy, so no sync request joins the batch, refuting the claim for
every origin string. -/
theorem recipes_configure_empty_origin_counterexample :
    (Recipes.update Recipes.init.1 (.configure "")).1.origin = some ""
      ∧ (Recipes.update Recipes.init.1 (.configure "")).2
          = [Recipes.Fx.restoreDB]
      ∧ Recipes.Fx.syncDB (Recipes.templateRecipesDatabase "")
          ∉ (Recipes.update Recipes.init.1 (.configure "")).2 := by
  refine ⟨rfl, rfl, ?_⟩
  decide

/-- C5 as amended (corrected): for a non-empty origin string,
`Configure(origin)` returns the state with `origin` set, equals the batch of
`RestoreRecipes` and `Sync` on that state, and issues both the database
restore-all request and the remote sync request in the same batch; with an
empty origin only the restore request is issued. -/
theorem recipes_configure_sets_origin_and_batches (model : Recipes.Model)
    (origin : String) (h : origin ≠ "") :
    (Recipes.update model (.configure origin)).1
        = { model with origin := some origin }
      ∧ Recipes.update model (.configure origin)
          = batchUpdate Recipes.update { model with origin := some origin }
              [.restoreRecipes, .sync]
      ∧ (Recipes.update model (.configure origin)).2
          = [Recipes.Fx.restoreDB,
             Recipes.Fx.syncDB (Recipes.templateRecipesDatabase origin)] := by
  have hb : (origin == "") = false := beq_eq_false_iff_ne.mpr h
  refine ⟨?_, rfl, ?_⟩
  · simp [Recipes.update, Recipes.configure, Recipes.sync, hb]
  · simp [Recipes.update, Recipes.configure, Recipes.sync, hb]

/-- C5 witness: a concrete non-empty origin - both effects issued. -/
theorem recipes_configure_sets_origin_and_batches_witness :
    ("http://origin" ≠ "")
      ∧ (Recipes.update Recipes.init.1 (.configure "http://origin")).2
          = [Recipes.Fx.restoreDB,
             Recipes.Fx.syncDB
               (Recipes.templateRecipesDatabase "http://origin")] :=
  ⟨by decide,
   (recipes_configure_sets_origin_and_batches Recipes.init.1 "http://origin"
      (by decide)).2.2⟩

/-- C6 (confirmed): when `entries[id]` exists, `StartByID(id)` makes `id` the
active entity (the single `active` field is overwritten, deselecting any
previous selection) and queues a `RequestStart` action carrying
`merge({}, entries[id])` - a fresh snapshot with the same fields as the
stored entry. -/
theorem recipes_startByID_activates_and_requests (model : Recipes.Model)
    (id : String) (r : Recipe) (h : objGet model.entries id = some r) :
    (Recipes.update model (.startByID id)).1.active = some id
      ∧ (Recipes.update model (.startByID id)).2
          = [Recipes.Fx.receive (.requestStart (some (jsMergeCopy r)))]
      ∧ jsMergeCopy r = r := by
  refine ⟨rfl, ?_, rfl⟩
  simp [Recipes.update, Recipes.startByID, Recipes.updateIndexed, cursor,
    Indexed.update, Recipes.RequestStart, h]

/-- C6 witness: a concrete model holding the entry `"x"` - it becomes active
and the `RequestStart` snapshot is queued. -/
theorem recipes_startByID_activates_and_requests_witness :
    objGet sampleRecipesModel.entries "x" = some sampleRecipe
      ∧ (Recipes.update sampleRecipesModel (.startByID "x")).1.active
          = some "x"
      ∧ (Recipes.update sampleRecipesModel (.startByID "x")).2
          = [Recipes.Fx.receive
              (.requestStart (some (jsMergeCopy sampleRecipe)))] :=
  ⟨rfl,
   (recipes_startByID_activates_and_requests sampleRecipesModel "x"
      sampleRecipe rfl).1,
   (recipes_startByID_activates_and_requests sampleRecipesModel "x"
      sampleRecipe rfl).2.1⟩

/-- C9 (confirmed): the recipes-form action mapper rewrites `Submitted` into
`Put(action.recipe)` and `Back` into `ActivatePanel(null)`, so dispatching
the mapped `Submitted` action runs the optimistic local insert and database
write path of `put`. -/
theorem recipesForm_submitted_routes_to_put (model : Recipes.Model)
    (recipe : Recipe) :
    Recipes.RecipesFormAction (.submitted recipe) = Recipes.Put recipe
      ∧ Recipes.RecipesFormAction .back = Recipes.ActivatePanel none
      ∧ Recipes.update model (Recipes.RecipesFormAction (.submitted recipe))
          = Recipes.put model recipe
      ∧ Recipes.update model (Recipes.RecipesFormAction .back)
          = Recipes.activatePanel model none :=
  ⟨rfl, rfl, rfl, rfl⟩

end Openag
